import Mathlib

/-!
Shallow embedding of the GR Cup race-intelligence engine
(`Stragery_engine.py`, class `GRCupAnalytics`).

Conventions of the embedding:
* pandas DataFrames become typed `List`s of record structures;
* Python floats become exact rationals `ℚ` (the engine performs only
  field arithmetic on them, except the sample standard deviation, whose
  square root is modelled in `ℝ`);
* `NaN` results (sample standard deviation of fewer than two values and
  everything downstream of it) become `Option.none`;
* Python exceptions become `Except String`;
* `print` logging is dropped, as is the free-text `message` field of an
  insight (pure display formatting).
-/

namespace GRCup

/-- Truncation toward zero, the behaviour of the Python `int()` conversion
applied to a non-integral number. -/
def truncQ (q : ℚ) : ℤ := if 0 ≤ q then ⌊q⌋ else ⌈q⌉

/-- Rounding to the nearest integer with ties going to the even integer,
the behaviour of the Python `round` builtin on exactly-represented values. -/
def roundHalfEven (x : ℚ) : ℤ :=
  let n := ⌊x⌋
  let r := x - n
  if r < 1/2 then n else if 1/2 < r then n + 1 else if n % 2 = 0 then n else n + 1

/-- Python `round(x, 1)`: one decimal place, ties to even. -/
def round1 (x : ℚ) : ℚ := (roundHalfEven (x * 10) : ℚ) / 10

/-! ### Resource depletion predictor (`predict_pit_window`, lines 246-291)

The intermediate quantities of the method body are given their own
definitions, under the local variable names used in the source. -/

/-- Default `fuel_per_lap` argument, 2.5 percent per lap. -/
def default_fuel_per_lap : ℚ := 5/2

/-- Default `tire_deg_rate` argument, 3.2 percent per lap. -/
def default_tire_deg_rate : ℚ := 16/5

/-- Line 261: `fuel_remaining = initial_fuel - (current_lap * fuel_per_lap)`
with `initial_fuel = 100`. -/
def fuel_remaining (current_lap : ℤ) (fuel_per_lap : ℚ) : ℚ :=
  100 - current_lap * fuel_per_lap

/-- Line 262: `tire_condition = initial_tire - (current_lap * tire_deg_rate)`
with `initial_tire = 100`. -/
def tire_condition (current_lap : ℤ) (tire_deg_rate : ℚ) : ℚ :=
  100 - current_lap * tire_deg_rate

/-- Line 265: `laps_on_fuel = fuel_remaining / fuel_per_lap`. -/
def laps_on_fuel (current_lap : ℤ) (fuel_per_lap : ℚ) : ℚ :=
  fuel_remaining current_lap fuel_per_lap / fuel_per_lap

/-- Line 266: `laps_on_tires = tire_condition / tire_deg_rate`. -/
def laps_on_tires (current_lap : ℤ) (tire_deg_rate : ℚ) : ℚ :=
  tire_condition current_lap tire_deg_rate / tire_deg_rate

/-- Lines 269-274: the branch selecting the critical factor. -/
def critical_factor (current_lap : ℤ) (fuel_per_lap tire_deg_rate : ℚ) : String :=
  if laps_on_fuel current_lap fuel_per_lap < laps_on_tires current_lap tire_deg_rate
  then "fuel" else "tires"

/-- Lines 269-274: the `laps_remaining` value selected alongside the
critical factor. -/
def laps_remaining (current_lap : ℤ) (fuel_per_lap tire_deg_rate : ℚ) : ℚ :=
  if laps_on_fuel current_lap fuel_per_lap < laps_on_tires current_lap tire_deg_rate
  then laps_on_fuel current_lap fuel_per_lap
  else laps_on_tires current_lap tire_deg_rate

/-- Line 277: `optimal_pit_lap = current_lap + max(1, int(laps_remaining - 2.5))`. -/
def optimal_pit_lap (current_lap : ℤ) (fuel_per_lap tire_deg_rate : ℚ) : ℤ :=
  current_lap + max 1 (truncQ (laps_remaining current_lap fuel_per_lap tire_deg_rate - 5/2))

/-- Line 288: the chained conditional giving the urgency string. -/
def urgency (current_lap : ℤ) (fuel_per_lap tire_deg_rate : ℚ) : String :=
  if laps_remaining current_lap fuel_per_lap tire_deg_rate < 3 then "critical"
  else if laps_remaining current_lap fuel_per_lap tire_deg_rate < 6 then "high"
  else "medium"

/-- The recommendation dictionary built at lines 279-289. -/
structure PitRecommendation where
  car_id : String
  current_lap : ℤ
  fuel_remaining_pct : ℚ
  tire_condition_pct : ℚ
  critical_factor : String
  laps_until_critical : ℚ
  optimal_pit_lap : ℤ
  pit_window : ℤ × ℤ
  urgency : String
deriving DecidableEq

/-- `predict_pit_window` (lines 246-291). -/
def predict_pit_window (car_id : String) (current_lap : ℤ)
    (fuel_per_lap tire_deg_rate : ℚ) : PitRecommendation :=
  { car_id := car_id
    current_lap := current_lap
    fuel_remaining_pct := round1 (fuel_remaining current_lap fuel_per_lap)
    tire_condition_pct := round1 (tire_condition current_lap tire_deg_rate)
    critical_factor := critical_factor current_lap fuel_per_lap tire_deg_rate
    laps_until_critical := round1 (laps_remaining current_lap fuel_per_lap tire_deg_rate)
    optimal_pit_lap := optimal_pit_lap current_lap fuel_per_lap tire_deg_rate
    pit_window := (optimal_pit_lap current_lap fuel_per_lap tire_deg_rate - 2,
                   optimal_pit_lap current_lap fuel_per_lap tire_deg_rate + 2)
    urgency := urgency current_lap fuel_per_lap tire_deg_rate }

/-- Every field of a recommendation except the echoed `car_id`. -/
def PitRecommendation.core (r : PitRecommendation) :
    ℤ × ℚ × ℚ × String × ℚ × ℤ × (ℤ × ℤ) × String :=
  (r.current_lap, r.fuel_remaining_pct, r.tire_condition_pct, r.critical_factor,
   r.laps_until_critical, r.optimal_pit_lap, r.pit_window, r.urgency)

/-! ### Tables

Rows of the lap-start / lap-end event tables and of the lap-time table.
Timestamps are modelled in seconds as rationals; a pandas DataFrame is a
list of rows in encounter order. -/

/-- One row of a lap-start or lap-end event table. -/
structure LapEvent where
  vehicle_id : String
  lap : ℤ
  timestamp : ℚ
deriving DecidableEq

/-- One row of the lap-time table (the columns selected at lines 150-151). -/
structure LapRow where
  vehicle_id : String
  lap : ℤ
  lap_time : ℚ
  timestamp : ℚ
deriving DecidableEq

/-- `_calculate_lap_times` (lines 128-161): inner-join the end events with
the start events on `(vehicle_id, lap)`, compute `lap_time` as end minus
start timestamp, and keep rows with `30 < lap_time < 300`. -/
def calculate_lap_times (lap_starts lap_ends : List LapEvent) : List LapRow :=
  let merged := lap_ends.flatMap fun e =>
    (lap_starts.filter fun s => decide (s.vehicle_id = e.vehicle_id ∧ s.lap = e.lap)).map
      fun s => { vehicle_id := e.vehicle_id, lap := e.lap,
                 lap_time := e.timestamp - s.timestamp, timestamp := e.timestamp }
  merged.filter fun r => decide (30 < r.lap_time ∧ r.lap_time < 300)

/-! ### Loading (`load_data`, lines 31-126)

Each expected file is either absent (`none`, a warning only), present and
readable (`some (.ok table)`), or present but raising on read
(`some (.error msg)`).  The telemetry, results, weather and best-laps
tables are opaque to every claim, so their rows are left abstract as
strings.  `_pivot_telemetry` and `_calculate_lap_times` catch their own
exceptions, so only the seven reads can abort the load. -/

/-- The optional input files of one `load_data` call. -/
structure LoadInputs where
  lap_time_file : Option (Except String (List LapRow))
  lap_start_file : Option (Except String (List LapEvent))
  lap_end_file : Option (Except String (List LapEvent))
  telemetry_file : Option (Except String (List String))
  results_file : Option (Except String (List String))
  weather_file : Option (Except String (List String))
  best_laps_file : Option (Except String (List String))

/-- The table attributes of a `GRCupAnalytics` instance after loading. -/
structure EngineState where
  lap_times : Option (List LapRow)
  lap_starts : Option (List LapEvent)
  lap_ends : Option (List LapEvent)
  telemetry : Option (List String)
  results : Option (List String)
  weather : Option (List String)
  best_laps : Option (List String)
deriving DecidableEq

/-- The attribute values set in `__init__` (lines 23-29): all `None`. -/
def initState : EngineState := ⟨none, none, none, none, none, none, none⟩

/-- One file read: a missing file degrades to `none` with a warning, a
present file either parses or raises. -/
def readFile {α : Type} (file : Option (Except String α)) : Except String (Option α) :=
  match file with
  | none => .ok none
  | some (.ok t) => .ok (some t)
  | some (.error e) => .error e

/-- `load_data` (lines 31-126): read the seven files in order inside one
try block; after the start and end tables are read, a present pair
overwrites `lap_times` with the derived table (lines 77-80). -/
def load_data (inp : LoadInputs) : Except String EngineState := do
  let lt ← readFile inp.lap_time_file
  let sta ← readFile inp.lap_start_file
  let en ← readFile inp.lap_end_file
  let lt := match sta, en with
    | some s, some e => some (calculate_lap_times s e)
    | _, _ => lt
  let tel ← readFile inp.telemetry_file
  let res ← readFile inp.results_file
  let wea ← readFile inp.weather_file
  let bst ← readFile inp.best_laps_file
  return { lap_times := lt, lap_starts := sta, lap_ends := en,
           telemetry := tel, results := res, weather := wea, best_laps := bst }

/-- The boolean the method returns: `True` at line 120 unless the except
clause at lines 122-126 was reached. -/
def load_data_result (inp : LoadInputs) : Bool :=
  match load_data inp with
  | .ok _ => true
  | .error _ => false

/-- Whether a file input does not raise on read. -/
def file_ok {α : Type} (file : Option (Except String α)) : Bool :=
  match file with
  | some (.error _) => false
  | _ => true

/-! ### Lap statistics (`analyze_lap_times`, lines 213-244)

pandas sample statistics: `mean` is the arithmetic mean, `std` the
sample standard deviation with denominator `n - 1`, which is NaN
(`none` here) for fewer than two values, and NaN contaminates the
consistency score. -/

/-- pandas `Series.min` over a nonempty list (0 is never reached). -/
def seriesMin (xs : List ℚ) : ℚ :=
  match xs with
  | [] => 0
  | x :: rest => rest.foldl min x

/-- pandas `Series.max` over a nonempty list (0 is never reached). -/
def seriesMax (xs : List ℚ) : ℚ :=
  match xs with
  | [] => 0
  | x :: rest => rest.foldl max x

/-- pandas `Series.mean`. -/
def seriesMean (xs : List ℚ) : ℚ := xs.sum / xs.length

/-- The sample variance with denominator `n - 1`; `none` models the NaN
that pandas produces for fewer than two samples. -/
def sample_variance (xs : List ℚ) : Option ℚ :=
  if xs.length < 2 then none
  else some ((xs.map fun x => (x - seriesMean xs) ^ 2).sum / ((xs.length : ℚ) - 1))

/-- pandas `Series.std`: square root of the sample variance. -/
noncomputable def sample_std (xs : List ℚ) : Option ℝ :=
  (sample_variance xs).map fun v => Real.sqrt (v : ℝ)

/-- The analysis dictionary built at lines 234-242. -/
structure LapAnalysis where
  car_id : Option String
  total_laps : ℕ
  best_lap : ℚ
  worst_lap : ℚ
  avg_lap : ℚ
  std_dev : Option ℝ
  consistency_score : Option ℝ

/-- `analyze_lap_times` (lines 213-244) over a typed table, whose car-id
and lap-time columns always resolve. -/
noncomputable def analyze_lap_times (lap_times : Option (List LapRow))
    (car_id : Option String) : Option LapAnalysis :=
  match lap_times with
  | none => none
  | some table =>
    if table.isEmpty then none
    else
      let df := match car_id with
        | some c => table.filter fun (r : LapRow) => decide (r.vehicle_id = c)
        | none => table
      if df.isEmpty then none
      else
        let xs := df.map LapRow.lap_time
        some { car_id := car_id
               total_laps := df.length
               best_lap := seriesMin xs
               worst_lap := seriesMax xs
               avg_lap := seriesMean xs
               std_dev := sample_std xs
               consistency_score :=
                 (sample_std xs).map fun s => 100 - s / (seriesMean xs : ℝ) * 100 }

/-! ### Insight generator (`generate_race_insights`, lines 361-424) -/

/-- One insight, without its free-text `message` (display formatting only). -/
structure Insight where
  priority : String
  type : String
  car_id : String
deriving DecidableEq

/-- pandas `Series.unique` on the car-id column: distinct values in first
encounter order. -/
def unique_ids (xs : List String) : List String :=
  match xs with
  | [] => []
  | a :: rest => a :: unique_ids (rest.filter fun b => decide (b ≠ a))
termination_by xs.length
decreasing_by
  simp only [List.length_cons]
  exact Nat.lt_succ_of_le (List.length_filter_le _ _)

/-- Lines 380-395: the pit insight, if any, for one car: a high-priority
pit-strategy alert on critical urgency, a medium-priority one on high
urgency, nothing on medium urgency.  The prediction uses the default
rates. -/
def pit_insight_for (current_lap : ℤ) (c : String) : Option Insight :=
  let pit_rec := predict_pit_window c current_lap default_fuel_per_lap default_tire_deg_rate
  if pit_rec.urgency = "critical" then some ⟨"high", "pit_strategy", c⟩
  else if pit_rec.urgency = "high" then some ⟨"medium", "pit_strategy", c⟩
  else none

/-- Lines 399-422: the trend insight, if any, for one car: among the laps
in `[current_lap - 5, current_lap]`, when at least three exist, compare
the last sample against the first. -/
def trend_insight_for (table : List LapRow) (current_lap : ℤ) (c : String) : Option Insight :=
  let recent_laps := table.filter fun r =>
    decide (r.vehicle_id = c ∧ current_lap - 5 ≤ r.lap ∧ r.lap ≤ current_lap)
  if 3 ≤ recent_laps.length then
    let lap_times := recent_laps.map LapRow.lap_time
    if (lap_times.getLastD 0) > (lap_times.headD 0) + 1/2 then
      some ⟨"medium", "performance", c⟩
    else if (lap_times.getLastD 0) < (lap_times.headD 0) - 3/10 then
      some ⟨"low", "performance", c⟩
    else none
  else none

/-- `generate_race_insights` (lines 361-424) over a typed table: the pit
pass over the first five distinct car ids, then the trend pass over the
first three. -/
def generate_race_insights (lap_times : Option (List LapRow)) (current_lap : ℤ) :
    List Insight :=
  match lap_times with
  | none => []
  | some table =>
    if table.isEmpty then []
    else
      let car_ids := unique_ids (table.map LapRow.vehicle_id)
      (car_ids.take 5).filterMap (pit_insight_for current_lap) ++
      (car_ids.take 3).filterMap (trend_insight_for table current_lap)

/-! ### Snapshot exporter (`export_live_data`, lines 426-483) -/

/-- One per-car summary of the exported race state (lines 458-465). -/
structure CarData where
  car_id : String
  position : Option ℕ
  last_lap : ℚ
  best_lap : ℚ
  avg_lap : ℚ
  pit_recommendation : PitRecommendation
deriving DecidableEq

/-- Lines 447-467: the summary for one car, `none` when the car has no
row at the current lap (the typed table always has a lap column). -/
def build_car_data (table : List LapRow) (current_lap : ℤ) (c : String) : Option CarData :=
  let car_laps := table.filter fun r => decide (r.vehicle_id = c)
  let current_lap_data := car_laps.filter fun r => decide (r.lap = current_lap)
  match current_lap_data with
  | [] => none
  | r :: _ =>
    some { car_id := c
           position := none
           last_lap := r.lap_time
           best_lap := seriesMin (car_laps.map LapRow.lap_time)
           avg_lap := seriesMean (car_laps.map LapRow.lap_time)
           pit_recommendation :=
             predict_pit_window c current_lap default_fuel_per_lap default_tire_deg_rate }

/-- The comparison key of the sort at line 470. -/
def byBestLap (a b : CarData) : Prop := a.best_lap ≤ b.best_lap

instance : DecidableRel byBestLap :=
  fun a b => inferInstanceAs (Decidable (a.best_lap ≤ b.best_lap))

instance : IsTotal CarData byBestLap := ⟨fun a b => le_total a.best_lap b.best_lap⟩

instance : IsTrans CarData byBestLap := ⟨fun _ _ _ => le_trans⟩

/-- Lines 472-474: `position = i + 1` down the sorted list. -/
def add_positions : ℕ → List CarData → List CarData
  | _, [] => []
  | i, c :: cs => { c with position := some (i + 1) } :: add_positions (i + 1) cs

/-- The `cars` sequence of the exported race state: one summary per
distinct car id, sorted ascending by best lap (a stable sort, as Python's),
then positions assigned in order (lines 438-474). -/
def export_cars (table : List LapRow) (current_lap : ℤ) : List CarData :=
  let car_ids := unique_ids (table.map LapRow.vehicle_id)
  let cars := car_ids.filterMap (build_car_data table current_lap)
  add_positions 0 (List.insertionSort byBestLap cars)

/-! ### Helper lemmas -/

/-- Under `max 1`, Python truncation toward zero agrees with the floor:
for nonnegative arguments they coincide, and for negative arguments both
are dominated by the 1. -/
lemma max_one_truncQ (x : ℚ) : max 1 (truncQ x) = max 1 ⌊x⌋ := by
  unfold truncQ
  split_ifs with h
  · rfl
  · push_neg at h
    have h1 : ⌈x⌉ ≤ 0 := Int.ceil_le.mpr (by exact_mod_cast h.le)
    have h2 : ⌊x⌋ ≤ 0 := Int.floor_nonpos h.le
    rw [max_eq_left (by omega), max_eq_left (by omega)]

/-- The urgency string is "critical" exactly below the 3-lap threshold. -/
lemma urgency_critical_iff (L : ℤ) (f t : ℚ) :
    urgency L f t = "critical" ↔ laps_remaining L f t < 3 := by
  unfold urgency
  split_ifs with h1 h2
  · simp [h1]
  · exact ⟨fun h => absurd h (by decide), fun h => absurd h h1⟩
  · exact ⟨fun h => absurd h (by decide), fun h => absurd h h1⟩

/-- The urgency string is "high" exactly on the band `[3, 6)`. -/
lemma urgency_high_iff (L : ℤ) (f t : ℚ) :
    urgency L f t = "high" ↔
      3 ≤ laps_remaining L f t ∧ laps_remaining L f t < 6 := by
  unfold urgency
  split_ifs with h1 h2
  · exact ⟨fun h => absurd h (by decide), fun h => absurd h1 (not_lt.mpr h.1)⟩
  · exact ⟨fun _ => ⟨not_lt.mp h1, h2⟩, fun _ => rfl⟩
  · exact ⟨fun h => absurd h (by decide), fun h => absurd h.2 h2⟩

/-- The urgency string is "medium" exactly from 6 laps on. -/
lemma urgency_medium_iff (L : ℤ) (f t : ℚ) :
    urgency L f t = "medium" ↔ 6 ≤ laps_remaining L f t := by
  unfold urgency
  split_ifs with h1 h2
  · exact ⟨fun h => absurd h (by decide), fun h => absurd h1 (not_lt.mpr (by linarith))⟩
  · exact ⟨fun h => absurd h (by decide), fun h => absurd h2 (not_lt.mpr h)⟩
  · exact ⟨fun _ => not_lt.mp h2, fun _ => rfl⟩

/-! ### Claims about the resource depletion predictor -/

/-- C1: for every car and admissible inputs, `predict_pit_window` follows
the linear depletion model — `fuel_remaining = 100 - current_lap * fuel_per_lap`
and `tire_condition = 100 - current_lap * tire_deg_rate`, neither clamped
at zero, `laps_on_fuel = fuel_remaining / fuel_per_lap`,
`laps_on_tires = tire_condition / tire_deg_rate` — and grades urgency as
"critical" below 3 laps remaining, "high" on `[3, 6)`, "medium" from 6 on;
at `current_lap = 15` with the default rates it yields
`fuel_remaining = 62.5`, `tire_condition = 52.0`, critical factor "tires",
`laps_remaining = 16.25` and urgency "medium". -/
theorem pit_depletion_model_spec (car : String) (current_lap : ℤ)
    (h0 : 0 ≤ current_lap) (fpl tdr : ℚ) (hf : 0 < fpl) (ht : 0 < tdr) :
    fuel_remaining current_lap fpl = 100 - current_lap * fpl ∧
    tire_condition current_lap tdr = 100 - current_lap * tdr ∧
    laps_on_fuel current_lap fpl = fuel_remaining current_lap fpl / fpl ∧
    laps_on_tires current_lap tdr = tire_condition current_lap tdr / tdr ∧
    ((predict_pit_window car current_lap fpl tdr).urgency = "critical" ↔
      laps_remaining current_lap fpl tdr < 3) ∧
    ((predict_pit_window car current_lap fpl tdr).urgency = "high" ↔
      3 ≤ laps_remaining current_lap fpl tdr ∧ laps_remaining current_lap fpl tdr < 6) ∧
    ((predict_pit_window car current_lap fpl tdr).urgency = "medium" ↔
      6 ≤ laps_remaining current_lap fpl tdr) ∧
    (current_lap = 15 ∧ fpl = 5/2 ∧ tdr = 16/5 →
      fuel_remaining current_lap fpl = 125/2 ∧
      tire_condition current_lap tdr = 52 ∧
      (predict_pit_window car current_lap fpl tdr).critical_factor = "tires" ∧
      laps_remaining current_lap fpl tdr = 65/4 ∧
      (predict_pit_window car current_lap fpl tdr).urgency = "medium") := by
  refine ⟨rfl, rfl, rfl, rfl,
    urgency_critical_iff current_lap fpl tdr,
    urgency_high_iff current_lap fpl tdr,
    urgency_medium_iff current_lap fpl tdr, ?_⟩
  rintro ⟨rfl, rfl, rfl⟩
  refine ⟨by norm_num [fuel_remaining], by norm_num [tire_condition], ?_, ?_, ?_⟩
  · show critical_factor 15 (5/2) (16/5) = "tires"
    norm_num [critical_factor, laps_on_fuel, laps_on_tires, fuel_remaining, tire_condition]
  · norm_num [laps_remaining, laps_on_fuel, laps_on_tires, fuel_remaining, tire_condition]
  · show urgency 15 (5/2) (16/5) = "medium"
    norm_num [urgency, laps_remaining, laps_on_fuel, laps_on_tires, fuel_remaining,
      tire_condition]

/-- Witness for C1 at the documented example input. -/
theorem pit_depletion_model_spec_witness :
    (0 : ℤ) ≤ 15 ∧ (0 : ℚ) < 5/2 ∧ (0 : ℚ) < 16/5 ∧
    (predict_pit_window "CAR_001" 15 (5/2) (16/5)).urgency = "medium" :=
  ⟨by norm_num, by norm_num, by norm_num,
    ((pit_depletion_model_spec "CAR_001" 15 (by norm_num) (5/2) (16/5)
      (by norm_num) (by norm_num)).2.2.2.2.2.2.2 ⟨rfl, rfl, rfl⟩).2.2.2.2⟩

/-- C2 counterexample: with equal fuel and tire rates the two
laps-remaining values tie, and the critical factor the code selects is
"tires", not "fuel" — the strict `<` check for fuel fails on a tie, so
the claim that ties resolve to fuel is false. -/
theorem critical_factor_tie_counterexample :
    laps_on_fuel 10 (5/2) = laps_on_tires 10 (5/2) ∧
    (predict_pit_window "CAR_001" 10 (5/2) (5/2)).critical_factor = "tires" ∧
    (predict_pit_window "CAR_001" 10 (5/2) (5/2)).critical_factor ≠ "fuel" := by
  refine ⟨by norm_num [laps_on_fuel, laps_on_tires, fuel_remaining, tire_condition], ?_, ?_⟩
  · show critical_factor 10 (5/2) (5/2) = "tires"
    norm_num [critical_factor, laps_on_fuel, laps_on_tires, fuel_remaining, tire_condition]
  · show critical_factor 10 (5/2) (5/2) ≠ "fuel"
    rw [show critical_factor 10 (5/2) (5/2) = "tires" by
      norm_num [critical_factor, laps_on_fuel, laps_on_tires, fuel_remaining, tire_condition]]
    decide

/-- C2 amended: the critical factor is whichever of fuel and tires yields
the strictly smaller laps-remaining value, and on a tie (`laps_on_tires ≤
laps_on_fuel` covers it) the critical factor is "tires" and
`laps_remaining` is taken from the tires value. -/
theorem critical_factor_selection (car : String) (L : ℤ) (f t : ℚ) :
    (laps_on_fuel L f < laps_on_tires L t →
      (predict_pit_window car L f t).critical_factor = "fuel" ∧
      laps_remaining L f t = laps_on_fuel L f) ∧
    (laps_on_tires L t ≤ laps_on_fuel L f →
      (predict_pit_window car L f t).critical_factor = "tires" ∧
      laps_remaining L f t = laps_on_tires L t) := by
  constructor
  · intro h
    constructor
    · show critical_factor L f t = "fuel"
      rw [critical_factor, if_pos h]
    · rw [laps_remaining, if_pos h]
  · intro h
    constructor
    · show critical_factor L f t = "tires"
      rw [critical_factor, if_neg (not_lt.mpr h)]
    · rw [laps_remaining, if_neg (not_lt.mpr h)]

/-- Witness for the amended C2 at the tie input. -/
theorem critical_factor_selection_witness :
    (predict_pit_window "CAR_001" 10 (5/2) (5/2)).critical_factor = "tires" ∧
    laps_remaining 10 (5/2) (5/2) = laps_on_tires 10 (5/2) :=
  (critical_factor_selection "CAR_001" 10 (5/2) (5/2)).2
    (le_of_eq (by norm_num [laps_on_fuel, laps_on_tires, fuel_remaining, tire_condition]))

/-- C3: the optimal pit lap is the current lap plus
`max(1, floor(laps_remaining - 2.5))` — hence always at least one lap
ahead — and the pit window brackets it by two laps either side; at
`current_lap = 36` with the default rates the urgency is "critical" and
the optimal pit lap is 37. -/
theorem optimal_pit_lap_spec (car : String) (current_lap : ℤ)
    (h0 : 0 ≤ current_lap) (fpl tdr : ℚ) (hf : 0 < fpl) (ht : 0 < tdr) :
    optimal_pit_lap current_lap fpl tdr =
      current_lap + max 1 ⌊laps_remaining current_lap fpl tdr - 5/2⌋ ∧
    current_lap + 1 ≤ optimal_pit_lap current_lap fpl tdr ∧
    (predict_pit_window car current_lap fpl tdr).pit_window =
      (optimal_pit_lap current_lap fpl tdr - 2,
       optimal_pit_lap current_lap fpl tdr + 2) ∧
    (current_lap = 36 ∧ fpl = 5/2 ∧ tdr = 16/5 →
      (predict_pit_window car current_lap fpl tdr).urgency = "critical" ∧
      optimal_pit_lap current_lap fpl tdr = 37) := by
  refine ⟨by rw [optimal_pit_lap, max_one_truncQ], ?_, rfl, ?_⟩
  · have h1 : (1 : ℤ) ≤ max 1 (truncQ (laps_remaining current_lap fpl tdr - 5/2)) :=
      le_max_left 1 _
    rw [optimal_pit_lap]
    omega
  · rintro ⟨rfl, rfl, rfl⟩
    constructor
    · show urgency 36 (5/2) (16/5) = "critical"
      norm_num [urgency, laps_remaining, laps_on_fuel, laps_on_tires, fuel_remaining,
        tire_condition]
    · norm_num [optimal_pit_lap, truncQ, laps_remaining, laps_on_fuel, laps_on_tires,
        fuel_remaining, tire_condition, Int.ceil_neg]

/-- Witness for C3 at the documented example input. -/
theorem optimal_pit_lap_spec_witness :
    (0 : ℤ) ≤ 36 ∧ (0 : ℚ) < 5/2 ∧ (0 : ℚ) < 16/5 ∧
    optimal_pit_lap 36 (5/2) (16/5) = 37 :=
  ⟨by norm_num, by norm_num, by norm_num,
    ((optimal_pit_lap_spec "CAR_001" 36 (by norm_num) (5/2) (16/5)
      (by norm_num) (by norm_num)).2.2.2 ⟨rfl, rfl, rfl⟩).2⟩

/-- C9: `predict_pit_window` does not depend on the car id except for the
echoed `car_id` field — two runs with different car ids and the same
remaining inputs agree on every other field. -/
theorem predict_car_id_noninterference (x y : String) (current_lap : ℤ)
    (fpl tdr : ℚ) :
    (predict_pit_window x current_lap fpl tdr).core =
      (predict_pit_window y current_lap fpl tdr).core := rfl

/-! ### Claims about the lap-time deriver -/

/-- Membership in the derived lap-time table: exactly the joined
start/end pairs whose difference passes the plausibility filter. -/
lemma mem_calculate_lap_times {lap_starts lap_ends : List LapEvent} {r : LapRow} :
    r ∈ calculate_lap_times lap_starts lap_ends ↔
      (∃ e ∈ lap_ends, ∃ s ∈ lap_starts,
        s.vehicle_id = e.vehicle_id ∧ s.lap = e.lap ∧
        r = ⟨e.vehicle_id, e.lap, e.timestamp - s.timestamp, e.timestamp⟩) ∧
      30 < r.lap_time ∧ r.lap_time < 300 := by
  unfold calculate_lap_times
  simp only [List.mem_filter, List.mem_flatMap, List.mem_map, List.mem_filter,
    decide_eq_true_eq]
  constructor
  · rintro ⟨⟨e, he, s, ⟨hs, hv, hl⟩, rfl⟩, hb⟩
    exact ⟨⟨e, he, s, hs, hv, hl, rfl⟩, hb⟩
  · rintro ⟨⟨e, he, s, hs, hv, hl, rfl⟩, hb⟩
    exact ⟨⟨e, he, s, ⟨hs, hv, hl⟩, rfl⟩, hb⟩

/-- C4: the derived table is the inner join of the end and start events
on `(vehicle_id, lap)` with `lap_time` the end-minus-start difference in
seconds, retaining exactly the rows with `30 < lap_time < 300`: every
output row satisfies the strict bound and arises from a matching pair,
a key present in only one of the two tables contributes no output row,
and every matching pair whose difference passes the bound contributes a
row. -/
theorem calculate_lap_times_spec (lap_starts lap_ends : List LapEvent) :
    (∀ r ∈ calculate_lap_times lap_starts lap_ends,
      30 < r.lap_time ∧ r.lap_time < 300) ∧
    (∀ r ∈ calculate_lap_times lap_starts lap_ends,
      ∃ s ∈ lap_starts, ∃ e ∈ lap_ends,
        s.vehicle_id = r.vehicle_id ∧ s.lap = r.lap ∧
        e.vehicle_id = r.vehicle_id ∧ e.lap = r.lap ∧
        r.lap_time = e.timestamp - s.timestamp ∧ r.timestamp = e.timestamp) ∧
    (∀ v l, ((∀ s ∈ lap_starts, ¬(s.vehicle_id = v ∧ s.lap = l)) ∨
             (∀ e ∈ lap_ends, ¬(e.vehicle_id = v ∧ e.lap = l))) →
      ∀ r ∈ calculate_lap_times lap_starts lap_ends,
        ¬(r.vehicle_id = v ∧ r.lap = l)) ∧
    (∀ s ∈ lap_starts, ∀ e ∈ lap_ends,
      s.vehicle_id = e.vehicle_id → s.lap = e.lap →
      30 < e.timestamp - s.timestamp → e.timestamp - s.timestamp < 300 →
      ∃ r ∈ calculate_lap_times lap_starts lap_ends,
        r.vehicle_id = e.vehicle_id ∧ r.lap = e.lap ∧
        r.lap_time = e.timestamp - s.timestamp) := by
  refine ⟨?_, ?_, ?_, ?_⟩
  · intro r hr
    exact (mem_calculate_lap_times.mp hr).2
  · intro r hr
    obtain ⟨⟨e, he, s, hs, hv, hl, rfl⟩, _⟩ := mem_calculate_lap_times.mp hr
    exact ⟨s, hs, e, he, hv, hl, rfl, rfl, rfl, rfl⟩
  · rintro v l hvl r hr ⟨hrv, hrl⟩
    obtain ⟨⟨e, he, s, hs, hv, hl, rfl⟩, _⟩ := mem_calculate_lap_times.mp hr
    rcases hvl with h | h
    · exact h s hs ⟨hv.trans hrv, hl.trans hrl⟩
    · exact h e he ⟨hrv, hrl⟩
  · intro s hs e he hv hl h30 h300
    exact ⟨⟨e.vehicle_id, e.lap, e.timestamp - s.timestamp, e.timestamp⟩,
      mem_calculate_lap_times.mpr ⟨⟨e, he, s, hs, hv, hl, rfl⟩, h30, h300⟩,
      rfl, rfl, rfl⟩

/-- Witness for C4 at a concrete matching start/end pair. -/
theorem calculate_lap_times_spec_witness :
    ∃ r ∈ calculate_lap_times [⟨"44", 1, 0⟩] [⟨"44", 1, 100⟩],
      r.vehicle_id = "44" ∧ r.lap = 1 ∧ r.lap_time = 100 - 0 :=
  (calculate_lap_times_spec [⟨"44", 1, 0⟩] [⟨"44", 1, 100⟩]).2.2.2
    ⟨"44", 1, 0⟩ (by simp) ⟨"44", 1, 100⟩ (by simp) rfl rfl
    (by norm_num) (by norm_num)

/-! ### Claim about the lap statistics analyzer -/

/-- C5 (code bug): `analyze_lap_times` computes
`consistency_score = 100 - std / mean * 100` from the sample standard
deviation, so for a car with exactly one lap the call indeed does not
raise — but the sample standard deviation of one value is NaN (`none`)
and the score it contaminates is NaN, not the exactly-100 the spec
prescribes; for two equal lap times the standard deviation is 0 and the
score is exactly 100 as claimed. -/
theorem consistency_single_lap_nan :
    ((analyze_lap_times (some [⟨"A", 1, 95, 0⟩]) (some "A")).map
        LapAnalysis.consistency_score) = some none ∧
    ((analyze_lap_times (some [⟨"A", 1, 95, 0⟩, ⟨"A", 2, 95, 95⟩]) (some "A")).map
        LapAnalysis.std_dev) = some (some 0) ∧
    ((analyze_lap_times (some [⟨"A", 1, 95, 0⟩, ⟨"A", 2, 95, 95⟩]) (some "A")).map
        LapAnalysis.consistency_score) = some (some 100) := by
  refine ⟨?_, ?_, ?_⟩
  · norm_num [analyze_lap_times, sample_std, sample_variance, List.filter]
  · norm_num [analyze_lap_times, sample_std, sample_variance, seriesMean, List.filter]
  · norm_num [analyze_lap_times, sample_std, sample_variance, seriesMean, List.filter]

/-! ### Claims about the insight generator -/

/-- C7: the insight list is the pit pass over the first five distinct car
ids in table-encounter order followed by the trend pass over the first
three, and the pit pass emits a high-priority pit-strategy insight exactly
on critical urgency, a medium-priority one exactly on high urgency, and
nothing on medium urgency. -/
theorem generate_race_insights_spec (table : List LapRow) (current_lap : ℤ) :
    (generate_race_insights (some table) current_lap =
      ((unique_ids (table.map LapRow.vehicle_id)).take 5).filterMap
        (pit_insight_for current_lap) ++
      ((unique_ids (table.map LapRow.vehicle_id)).take 3).filterMap
        (trend_insight_for table current_lap)) ∧
    (∀ c,
      ((predict_pit_window c current_lap default_fuel_per_lap
          default_tire_deg_rate).urgency = "critical" →
        pit_insight_for current_lap c = some ⟨"high", "pit_strategy", c⟩) ∧
      ((predict_pit_window c current_lap default_fuel_per_lap
          default_tire_deg_rate).urgency = "high" →
        pit_insight_for current_lap c = some ⟨"medium", "pit_strategy", c⟩) ∧
      ((predict_pit_window c current_lap default_fuel_per_lap
          default_tire_deg_rate).urgency = "medium" →
        pit_insight_for current_lap c = none)) := by
  constructor
  · cases table with
    | nil => simp [generate_race_insights, unique_ids]
    | cons a l => rfl
  · intro c
    refine ⟨?_, ?_, ?_⟩
    · intro h
      simp only [pit_insight_for]
      rw [if_pos h]
    · intro h
      simp only [pit_insight_for]
      rw [if_neg (by rw [h]; decide), if_pos h]
    · intro h
      simp only [pit_insight_for]
      rw [if_neg (by rw [h]; decide), if_neg (by rw [h]; decide)]

/-- Witness for C7: at lap 36 the default-rate urgency is critical, and
the pit pass yields the high-priority insight. -/
theorem generate_race_insights_spec_witness :
    pit_insight_for 36 "CAR_001" = some ⟨"high", "pit_strategy", "CAR_001"⟩ :=
  ((generate_race_insights_spec [] 36).2 "CAR_001").1 (by
    show urgency 36 default_fuel_per_lap default_tire_deg_rate = "critical"
    norm_num [urgency, laps_remaining, laps_on_fuel, laps_on_tires, fuel_remaining,
      tire_condition, default_fuel_per_lap, default_tire_deg_rate])

/-! ### Claims about loading -/

/-- A successful Except bind steps to its continuation. -/
lemma except_bind_ok {α β : Type} (a : α) (k : α → Except String β) :
    (Except.ok a >>= k) = k a := rfl

/-- A failed Except bind short-circuits. -/
lemma except_bind_error {α β : Type} (m : String) (k : α → Except String β) :
    ((Except.error m : Except String α) >>= k) = Except.error m := rfl

/-- C8: when a direct lap-time table and both a lap-start and lap-end
table are present, any state that `load_data` successfully returns holds
the derived table, not the directly loaded one — derivation overwrites
the direct load. -/
theorem load_overwrites_direct_lap_times (inp : LoadInputs) (direct : List LapRow)
    (s e : List LapEvent) (st : EngineState)
    (h1 : inp.lap_time_file = some (.ok direct))
    (h2 : inp.lap_start_file = some (.ok s))
    (h3 : inp.lap_end_file = some (.ok e))
    (h : load_data inp = .ok st) :
    st.lap_times = some (calculate_lap_times s e) := by
  obtain ⟨f1, f2, f3, f4, f5, f6, f7⟩ := inp
  simp only at h1 h2 h3
  subst h1
  subst h2
  subst h3
  rcases f4 with _ | (m4 | t4) <;> rcases f5 with _ | (m5 | t5) <;>
    rcases f6 with _ | (m6 | t6) <;> rcases f7 with _ | (m7 | t7) <;>
    cases h <;> rfl

/-- The input set of the C8 witness: an empty direct table together with
one matching start/end pair, nothing else. -/
def demo_inputs : LoadInputs :=
  ⟨some (.ok []), some (.ok [⟨"44", 1, 0⟩]), some (.ok [⟨"44", 1, 100⟩]),
   none, none, none, none⟩

/-- The state the C8 witness load produces. -/
def demo_state : EngineState :=
  ⟨some (calculate_lap_times [⟨"44", 1, 0⟩] [⟨"44", 1, 100⟩]),
   some [⟨"44", 1, 0⟩], some [⟨"44", 1, 100⟩], none, none, none, none⟩

/-- Witness for C8 at a concrete load. -/
theorem load_overwrites_direct_lap_times_witness :
    load_data demo_inputs = .ok demo_state ∧
    demo_state.lap_times = some (calculate_lap_times [⟨"44", 1, 0⟩] [⟨"44", 1, 100⟩]) :=
  ⟨rfl, load_overwrites_direct_lap_times demo_inputs [] [⟨"44", 1, 0⟩]
    [⟨"44", 1, 100⟩] demo_state rfl rfl rfl rfl⟩

/-- C10: `load_data` succeeds exactly when none of the seven file reads
raises — in particular with every expected file missing it returns the
success flag and every table left unloaded — and a `False` return occurs
exactly when a read raised. -/
theorem load_data_success_iff :
    (∀ inp : LoadInputs, load_data_result inp =
      (file_ok inp.lap_time_file && file_ok inp.lap_start_file &&
       file_ok inp.lap_end_file && file_ok inp.telemetry_file &&
       file_ok inp.results_file && file_ok inp.weather_file &&
       file_ok inp.best_laps_file)) ∧
    load_data ⟨none, none, none, none, none, none, none⟩ = .ok initState ∧
    load_data_result ⟨none, none, none, none, none, none, none⟩ = true := by
  refine ⟨?_, rfl, rfl⟩
  rintro ⟨f1, f2, f3, f4, f5, f6, f7⟩
  rcases f1 with _ | (m1 | t1) <;> rcases f2 with _ | (m2 | t2) <;>
    rcases f3 with _ | (m3 | t3) <;> rcases f4 with _ | (m4 | t4) <;>
    rcases f5 with _ | (m5 | t5) <;> rcases f6 with _ | (m6 | t6) <;>
    rcases f7 with _ | (m7 | t7) <;> rfl

/-! ### Claim about the snapshot exporter -/

/-- Position assignment does not touch any other field, so a member of
the positioned list shares its best lap with a member of the input. -/
lemma mem_add_positions {l : List CarData} {i : ℕ} {b : CarData}
    (hb : b ∈ add_positions i l) : ∃ a ∈ l, b.best_lap = a.best_lap := by
  induction l generalizing i with
  | nil => cases hb
  | cons c cs ih =>
    rcases List.mem_cons.mp hb with rfl | hb
    · exact ⟨c, List.mem_cons_self c cs, rfl⟩
    · obtain ⟨a, ha, hba⟩ := ih hb
      exact ⟨a, List.mem_cons_of_mem c ha, hba⟩

/-- Position assignment preserves the best-lap ordering. -/
lemma add_positions_pairwise {l : List CarData} (h : l.Pairwise byBestLap) (i : ℕ) :
    (add_positions i l).Pairwise (fun a b => a.best_lap ≤ b.best_lap) := by
  induction l generalizing i with
  | nil => exact List.Pairwise.nil
  | cons c cs ih =>
    rcases List.pairwise_cons.mp h with ⟨hc, hcs⟩
    refine List.Pairwise.cons ?_ (ih hcs (i + 1))
    intro b hb
    obtain ⟨a, ha, hba⟩ := mem_add_positions hb
    have := hc a ha
    rw [byBestLap] at this
    calc ({ c with position := some (i + 1) } : CarData).best_lap
        = c.best_lap := rfl
      _ ≤ a.best_lap := this
      _ = b.best_lap := hba.symm

/-- The position column of the assigned list is `i + 1, i + 2, ...`. -/
lemma add_positions_map_position : ∀ (l : List CarData) (i : ℕ),
    (add_positions i l).map CarData.position =
      (List.range l.length).map (fun k => some (i + k + 1)) := by
  intro l
  induction l with
  | nil => intro i; rfl
  | cons c cs ih =>
    intro i
    simp only [add_positions, List.map_cons, List.length_cons,
      List.range_succ_eq_map, List.map_map, ih (i + 1)]
    refine congrArg₂ _ (by simp) ?_
    refine List.map_congr_left ?_
    intro k _
    simp only [Function.comp_apply, Option.some.injEq]
    omega

/-- Position assignment keeps the length. -/
lemma add_positions_length : ∀ (l : List CarData) (i : ℕ),
    (add_positions i l).length = l.length := by
  intro l
  induction l with
  | nil => intro i; rfl
  | cons c cs ih => intro i; simp [add_positions, ih (i + 1)]

/-- C6: the exported car sequence is sorted non-decreasing by best lap,
and the position column is exactly `1, 2, ..., n` down that order. -/
theorem export_cars_sorted_positions (table : List LapRow) (current_lap : ℤ) :
    ((export_cars table current_lap).Pairwise
      (fun a b => a.best_lap ≤ b.best_lap)) ∧
    (export_cars table current_lap).map CarData.position =
      (List.range (export_cars table current_lap).length).map
        (fun k => some (k + 1)) := by
  constructor
  · exact add_positions_pairwise (List.sorted_insertionSort byBestLap _) 0
  · rw [export_cars]
    rw [add_positions_map_position, add_positions_length]
    refine List.map_congr_left ?_
    intro k _
    simp

end GRCup

